import Mathlib

/-!
Verification of the snake growth simulation (`snake.py`).

The `Snake` dataclass is embedded as a Lean structure; Python integers are
`Int` (arbitrary precision, possibly negative), strings are `String`.
The mutating methods (`eat_apple`, `_advance_color`) are embedded as pure
state-transforming functions; a method that raises `ValueError` becomes a
function into `Except String`, carrying the exact message the source builds.
Since `eat_apple` validates its arguments before touching any field, the
pure embedding (which returns either an error or a whole new state) is
faithful to the in-place mutation of the source.
-/

/-- The class-level `_color_cycle` tuple: `("green", "yellow", "red", "blue")`. -/
def color_cycle : List String := ["green", "yellow", "red", "blue"]

/-- State of the `Snake` dataclass: fields `length`, `girth`, `color`
and the internal `_color_index`. -/
structure Snake where
  length : Int
  girth : Int
  color : String
  color_index : Nat
  deriving DecidableEq, Repr

/-- The error message built by `__post_init__` for an invalid color:
`f"Initial color must be one of {allowed_colors}; got '{self.color}'."`
where `allowed_colors = ", ".join(self._color_cycle)`. -/
def invalidColorMsg (color : String) : String :=
  "Initial color must be one of " ++ String.intercalate ", " color_cycle
    ++ "; got \x27" ++ color ++ "\x27."

/-- Construction of a `Snake` (dataclass `__init__` followed by
`__post_init__`): validates `color` against the cycle, raising `ValueError`
(the `InvalidColor` error) otherwise, then sets `_color_index` to
`self._color_cycle.index(self.color)`.  `color` defaults to `"green"`. -/
def mkSnake (length girth : Int) (color : String := "green") : Except String Snake :=
  if color ∈ color_cycle then
    Except.ok { length := length, girth := girth, color := color,
                color_index := color_cycle.indexOf color }
  else
    Except.error (invalidColorMsg color)

/-- Embedding of `Snake._advance_color`: sets `_color_index` to
`(_color_index + 1) % len(_color_cycle)` and then `color` to
`_color_cycle[_color_index]`.  The new index is a remainder modulo 4, so the
tuple lookup (embedded with `getD`, whose default is never reached) is always
in bounds. -/
def advance_color (s : Snake) : Snake :=
  let i := (s.color_index + 1) % color_cycle.length
  { s with color_index := i, color := color_cycle.getD i "" }

/-- Embedding of `Snake.eat_apple` (both gains default to 1 in the source):
rejects a negative `length_gain` or `girth_gain` with
`ValueError("Growth values must be non-negative")` (the `InvalidGrowth`
error) before any mutation; on success adds the gains and advances the color. -/
def eat_apple (s : Snake) (length_gain girth_gain : Int := 1) : Except String Snake :=
  if length_gain < 0 ∨ girth_gain < 0 then
    Except.error "Growth values must be non-negative"
  else
    Except.ok (advance_color
      { s with length := s.length + length_gain, girth := s.girth + girth_gain })

/-- Embedding of `Snake.description` (a `@property`, i.e. a read with no
mutation — embedded as a plain function of the state, so evaluating it cannot
change any field): the f-string reporting length, girth and color. -/
def description (s : Snake) : String :=
  "The snake is now " ++ toString s.length ++ " units long, "
    ++ toString s.girth ++ " units around, and " ++ s.color ++ "."

/-- A sequence of `eat_apple` calls, one per `(length_gain, girth_gain)` pair;
stops at the first failure, as a raised `ValueError` would. -/
def feedSeq (s : Snake) : List (Int × Int) → Except String Snake
  | [] => Except.ok s
  | (lg, gg) :: rest =>
    match eat_apple s lg gg with
    | Except.error e => Except.error e
    | Except.ok s1 => feedSeq s1 rest

/-- Loop body of `run_simulation`: feeds `n` more apples, numbering them
from `k` (`apple_number`), and collects the printed `After apple …` lines. -/
def simLoop (length_gain girth_gain : Int) : Snake → Nat → Nat → Except String (List String)
  | _, 0, _ => Except.ok []
  | s, n + 1, k =>
    match eat_apple s length_gain girth_gain with
    | Except.error e => Except.error e
    | Except.ok s1 =>
      match simLoop length_gain girth_gain s1 n (k + 1) with
      | Except.error e => Except.error e
      | Except.ok rest =>
        Except.ok (("After apple " ++ toString k ++ ": " ++ description s1) :: rest)

/-- Embedding of `run_simulation`: builds `Snake(length=5, girth=2)` (default
color), prints the initial description, then feeds `apples` apples, printing
after each.  The result is the list of printed lines; `range(1, apples + 1)`
iterates `max 0 apples = apples.toNat` times. -/
def run_simulation (apples length_gain girth_gain : Int) : Except String (List String) :=
  match mkSnake 5 2 with
  | Except.error e => Except.error e
  | Except.ok snake =>
    match simLoop length_gain girth_gain snake apples.toNat 1 with
    | Except.error e => Except.error e
    | Except.ok rest =>
      Except.ok (("Initial: " ++ description snake) :: rest)

/-- Predicate: `needle` occurs as a contiguous substring of `hay`. -/
def containsSub (needle hay : String) : Prop :=
  ∃ p q : String, hay = p ++ needle ++ q

/-- The state invariant kept by the source: `_color_index` is a valid index
into `_color_cycle` and `color` is the entry there. -/
def SnakeInv (s : Snake) : Prop :=
  s.color_index < color_cycle.length ∧ color_cycle.getD s.color_index "" = s.color

theorem str_append_assoc (a b c : String) : a ++ b ++ c = a ++ (b ++ c) :=
  String.ext (by simp [String.data_append])

theorem containsSub_trans (n m h : String) (h1 : containsSub n m) (h2 : containsSub m h) :
    containsSub n h := by
  obtain ⟨p1, q1, rfl⟩ := h1
  obtain ⟨p2, q2, rfl⟩ := h2
  exact ⟨p2 ++ p1, q1 ++ q2, by simp [str_append_assoc]⟩

theorem eat_apple_ok (s : Snake) (lg gg : Int) (hl : 0 ≤ lg) (hg : 0 ≤ gg) :
    eat_apple s lg gg = Except.ok
      (advance_color { s with length := s.length + lg, girth := s.girth + gg }) := by
  unfold eat_apple
  rw [if_neg (by omega)]

theorem eat_apple_ok_inv {s : Snake} {lg gg : Int} {s1 : Snake}
    (h : eat_apple s lg gg = Except.ok s1) :
    0 ≤ lg ∧ 0 ≤ gg ∧
      s1 = advance_color { s with length := s.length + lg, girth := s.girth + gg } := by
  unfold eat_apple at h
  split at h
  · cases h
  · next hneg =>
    injection h with h1
    exact ⟨by omega, by omega, h1.symm⟩

theorem advance_color_inv (s : Snake) : SnakeInv (advance_color s) := by
  unfold SnakeInv advance_color
  exact ⟨Nat.mod_lt _ (by decide), rfl⟩

theorem mkSnake_ok {l g : Int} {c : String} {s : Snake}
    (h : mkSnake l g c = Except.ok s) :
    c ∈ color_cycle ∧ s.length = l ∧ s.girth = g ∧ s.color = c ∧
      s.color_index = color_cycle.indexOf c ∧ SnakeInv s := by
  unfold mkSnake at h
  split at h
  · next hc =>
    injection h with h1
    subst h1
    have hlt : color_cycle.indexOf c < color_cycle.length := List.indexOf_lt_length.mpr hc
    refine ⟨hc, rfl, rfl, rfl, rfl, hlt, ?_⟩
    rw [List.getD_eq_getElem _ _ hlt]
    exact List.getElem_indexOf hlt
  · cases h

theorem feedSeq_ok_inv (gains : List (Int × Int)) (s s' : Snake) (hinv : SnakeInv s)
    (h : feedSeq s gains = Except.ok s') :
    SnakeInv s' ∧ s'.color_index = (s.color_index + gains.length) % 4 ∧
      (0 ≤ s.length → 0 ≤ s.girth → 0 ≤ s'.length ∧ 0 ≤ s'.girth) := by
  induction gains generalizing s with
  | nil =>
    rw [feedSeq] at h
    injection h with h1
    subst h1
    have hlt : s.color_index < 4 := hinv.1
    refine ⟨hinv, ?_, fun h1 h2 => ⟨h1, h2⟩⟩
    simp only [List.length_nil]
    omega
  | cons p rest ih =>
    obtain ⟨lg, gg⟩ := p
    rw [feedSeq] at h
    cases heat : eat_apple s lg gg with
    | error e => rw [heat] at h; cases h
    | ok s1 =>
      rw [heat] at h
      obtain ⟨hl, hg, hs1⟩ := eat_apple_ok_inv heat
      have hinv1 : SnakeInv s1 := hs1 ▸ advance_color_inv _
      have hidx1 : s1.color_index = (s.color_index + 1) % 4 := by
        rw [hs1]; simp [advance_color, color_cycle]
      have hlen1 : s1.length = s.length + lg := by rw [hs1]; simp [advance_color]
      have hgir1 : s1.girth = s.girth + gg := by rw [hs1]; simp [advance_color]
      obtain ⟨hi, hidx, hnn⟩ := ih s1 hinv1 h
      refine ⟨hi, ?_, ?_⟩
      · rw [hidx, hidx1]
        simp only [List.length_cons]
        omega
      · intro h1 h2
        exact hnn (by omega) (by omega)

/-- Claim C1: for every `Snake` state and all non-negative integer gains, a
successful `eat_apple` call yields a state whose `length` is the old `length`
plus `lengthGain` and whose `girth` is the old `girth` plus `girthGain`. -/
theorem claim_C1 (s : Snake) (lengthGain girthGain : Int)
    (hl : 0 ≤ lengthGain) (hg : 0 ≤ girthGain) :
    ∃ s' : Snake, eat_apple s lengthGain girthGain = Except.ok s' ∧
      s'.length = s.length + lengthGain ∧ s'.girth = s.girth + girthGain :=
  ⟨_, eat_apple_ok s _ _ hl hg, by simp [advance_color], by simp [advance_color]⟩

/-- Concrete instance of claim C1 at gains 3 and 4. -/
theorem claim_C1_witness :
    ∃ s' : Snake, eat_apple ⟨5, 2, "green", 0⟩ 3 4 = Except.ok s' ∧
      s'.length = 5 + 3 ∧ s'.girth = 2 + 4 :=
  claim_C1 ⟨5, 2, "green", 0⟩ 3 4 (by decide) (by decide)

/-- Claim C2: for every `Snake` constructed with a valid initial color sitting
at cycle position `s.color_index`, and every sequence of `k` successful
`eat_apple` calls (whatever the gain arguments), the color after the `k`-th
call is the color-cycle entry at index `(initialIndex + k) % 4`. -/
theorem claim_C2 (l g : Int) (c : String) (s s' : Snake) (gains : List (Int × Int))
    (hmk : mkSnake l g c = Except.ok s) (hfeed : feedSeq s gains = Except.ok s') :
    s'.color = color_cycle.getD ((s.color_index + gains.length) % 4) "" := by
  obtain ⟨-, -, -, -, -, hinv⟩ := mkSnake_ok hmk
  obtain ⟨hinv', hidx, -⟩ := feedSeq_ok_inv gains s s' hinv hfeed
  rw [← hidx]
  exact hinv'.2.symm

/-- Concrete instance of claim C2: start color red (index 2), two apples. -/
theorem claim_C2_witness :
    Snake.color ⟨2, 3, "green", 0⟩ = color_cycle.getD ((2 + 2) % 4) "" :=
  claim_C2 1 1 "red" ⟨1, 1, "red", 2⟩ ⟨2, 3, "green", 0⟩ [(0, 0), (1, 2)] (by rfl) (by rfl)

/-- Claim C3: calling `eat_apple` with a negative `length_gain` or a negative
`girth_gain` fails with the `InvalidGrowth` error message.  In the source the
validation runs before any assignment, so the embedding returns the error and
no successor state at all: the caller keeps the prior `length`, `girth`,
`color` and `_color_index` untouched (all-or-nothing). -/
theorem claim_C3 (s : Snake) (lg gg : Int) (hneg : lg < 0 ∨ gg < 0) :
    eat_apple s lg gg = Except.error "Growth values must be non-negative" ∧
      ∀ s' : Snake, eat_apple s lg gg ≠ Except.ok s' := by
  have herr : eat_apple s lg gg = Except.error "Growth values must be non-negative" := by
    unfold eat_apple
    rw [if_pos hneg]
  exact ⟨herr, fun s' hok => by rw [herr] at hok; cases hok⟩

/-- Concrete instance of claim C3 at gains (-1, 0) and (0, -1). -/
theorem claim_C3_witness :
    (eat_apple ⟨5, 2, "green", 0⟩ (-1) 0 = Except.error "Growth values must be non-negative" ∧
      ∀ s' : Snake, eat_apple ⟨5, 2, "green", 0⟩ (-1) 0 ≠ Except.ok s') ∧
    (eat_apple ⟨5, 2, "green", 0⟩ 0 (-1) = Except.error "Growth values must be non-negative" ∧
      ∀ s' : Snake, eat_apple ⟨5, 2, "green", 0⟩ 0 (-1) ≠ Except.ok s') :=
  ⟨claim_C3 ⟨5, 2, "green", 0⟩ (-1) 0 (Or.inl (by decide)),
   claim_C3 ⟨5, 2, "green", 0⟩ 0 (-1) (Or.inr (by decide))⟩

/-- Claim C4: constructing a `Snake` with any color outside the fixed cycle
fails with the `InvalidColor` error, whose message contains every member of
the allowed color cycle as a substring. -/
theorem claim_C4 (l g : Int) (c : String) (hc : c ∉ color_cycle) :
    mkSnake l g c = Except.error (invalidColorMsg c) ∧
      ∀ col ∈ color_cycle, containsSub col (invalidColorMsg c) := by
  constructor
  · unfold mkSnake
    rw [if_neg hc]
  · intro col hcol
    have hA : containsSub (String.intercalate ", " color_cycle) (invalidColorMsg c) :=
      ⟨"Initial color must be one of ", "; got \x27" ++ c ++ "\x27.",
        by unfold invalidColorMsg; simp [str_append_assoc]⟩
    refine containsSub_trans _ _ _ ?_ hA
    fin_cases hcol
    · exact ⟨"", ", yellow, red, blue", rfl⟩
    · exact ⟨"green, ", ", red, blue", rfl⟩
    · exact ⟨"green, yellow, ", ", blue", rfl⟩
    · exact ⟨"green, yellow, red, ", "", rfl⟩

/-- Concrete instance of claim C4 at the color purple. -/
theorem claim_C4_witness :
    mkSnake 5 2 "purple" = Except.error (invalidColorMsg "purple") ∧
      ∀ col ∈ color_cycle, containsSub col (invalidColorMsg "purple") :=
  claim_C4 5 2 "purple" (by decide)

/-- Claim C5: the invariant `colorCycle[colorIndex] == color` holds after
successful construction, holds after every successful `eat_apple`, is kept
when `eat_apple` fails (the failing call returns before mutating, so the
state is the prior one), and reading `description` does not disturb it
(`description` is a pure read). -/
theorem claim_C5 :
    (∀ (l g : Int) (c : String) (s : Snake),
        mkSnake l g c = Except.ok s → color_cycle.getD s.color_index "" = s.color) ∧
    (∀ (s : Snake) (lg gg : Int) (s' : Snake),
        eat_apple s lg gg = Except.ok s' → color_cycle.getD s'.color_index "" = s'.color) ∧
    (∀ (s : Snake) (lg gg : Int) (e : String),
        color_cycle.getD s.color_index "" = s.color →
        eat_apple s lg gg = Except.error e → color_cycle.getD s.color_index "" = s.color) ∧
    (∀ s : Snake, color_cycle.getD s.color_index "" = s.color →
        description s = description s ∧ color_cycle.getD s.color_index "" = s.color) := by
  refine ⟨fun l g c s h => (mkSnake_ok h).2.2.2.2.2.2,
          fun s lg gg s' h => ?_,
          fun s lg gg e hin _ => hin,
          fun s hin => ⟨rfl, hin⟩⟩
  obtain ⟨-, -, hs'⟩ := eat_apple_ok_inv h
  exact (hs' ▸ advance_color_inv _).2

/-- Concrete instance of claim C5 for the freshly built default snake. -/
theorem claim_C5_witness :
    color_cycle.getD (Snake.color_index ⟨5, 2, "green", 0⟩) "" = Snake.color ⟨5, 2, "green", 0⟩ :=
  claim_C5.1 5 2 "green" ⟨5, 2, "green", 0⟩ (by rfl)

/-- Claim C6 counterexample: construction does not validate `length`, so
`Snake(length=-1, girth=0)` is accepted while its `length` field is negative,
refuting `length >= 0` "after construction with any accepted inputs". -/
theorem claim_C6_counterexample :
    mkSnake (-1) 0 "green" = Except.ok ⟨-1, 0, "green", 0⟩ ∧
      ¬ 0 ≤ Snake.length ⟨-1, 0, "green", 0⟩ :=
  ⟨rfl, by decide⟩

/-- Claim C6 (amended): for every `Snake` constructed with non-negative
initial `length` and `girth`, both fields are non-negative after construction
and stay non-negative after any sequence of successful `eat_apple` calls. -/
theorem claim_C6 (l g : Int) (c : String) (s s' : Snake) (gains : List (Int × Int))
    (hl : 0 ≤ l) (hg : 0 ≤ g)
    (hmk : mkSnake l g c = Except.ok s) (hfeed : feedSeq s gains = Except.ok s') :
    0 ≤ s.length ∧ 0 ≤ s.girth ∧ 0 ≤ s'.length ∧ 0 ≤ s'.girth := by
  obtain ⟨-, h1, h2, -, -, hinv⟩ := mkSnake_ok hmk
  obtain ⟨-, -, hnn⟩ := feedSeq_ok_inv gains s s' hinv hfeed
  obtain ⟨h3, h4⟩ := hnn (by omega) (by omega)
  exact ⟨by omega, by omega, h3, h4⟩

/-- Concrete instance of amended claim C6: one default apple from (5, 2). -/
theorem claim_C6_witness :
    0 ≤ Snake.length ⟨5, 2, "green", 0⟩ ∧ 0 ≤ Snake.girth ⟨5, 2, "green", 0⟩ ∧
      0 ≤ Snake.length ⟨6, 3, "yellow", 1⟩ ∧ 0 ≤ Snake.girth ⟨6, 3, "yellow", 1⟩ :=
  claim_C6 5 2 "green" ⟨5, 2, "green", 0⟩ ⟨6, 3, "yellow", 1⟩ [(1, 1)]
    (by decide) (by decide) (by rfl) (by rfl)

/-- Claim C7: `description` is embedded as a pure function of the state, so
reading it cannot change `length`, `girth`, `color` or `_color_index`; the
returned string contains the current length value, the current girth value
and the current color as substrings. -/
theorem claim_C7 (s : Snake) :
    containsSub (toString s.length) (description s) ∧
      containsSub (toString s.girth) (description s) ∧
      containsSub s.color (description s) := by
  refine ⟨⟨"The snake is now ",
            " units long, " ++ toString s.girth ++ " units around, and " ++ s.color ++ ".", ?_⟩,
          ⟨"The snake is now " ++ toString s.length ++ " units long, ",
            " units around, and " ++ s.color ++ ".", ?_⟩,
          ⟨"The snake is now " ++ toString s.length ++ " units long, "
              ++ toString s.girth ++ " units around, and ", ".", ?_⟩⟩ <;>
    simp [description, str_append_assoc]

/-- Claim C8 counterexample: the driver run with `apples=2`,
`length-gain=1`, `girth-gain=1` prints three lines (the `Initial:` line plus
one line per apple), not exactly two. -/
theorem claim_C8_counterexample :
    Except.map List.length (run_simulation 2 1 1) = Except.ok 3 ∧ (3 : Nat) ≠ 2 :=
  ⟨rfl, by decide⟩

/-- Claim C8 (amended): the driver run with `apples=2`, `length-gain=1`,
`girth-gain=1` from the hard-coded start state `length=5`, `girth=2`,
`color=green` produces exactly three printed lines — the initial description
plus two apple reports — whose apple lines report length 6 then 7 and girth
3 then 4, with the color sequence green, yellow, red across the run. -/
theorem claim_C8 :
    run_simulation 2 1 1 = Except.ok
      ["Initial: The snake is now 5 units long, 2 units around, and green.",
       "After apple 1: The snake is now 6 units long, 3 units around, and yellow.",
       "After apple 2: The snake is now 7 units long, 4 units around, and red."] := by
  rfl

/-- Claim C9: on every reachable `Snake` state, `eat_apple` with
`length_gain=0` and `girth_gain=0` succeeds, leaves `length` and `girth`
unchanged, and still advances the color one step along the cycle — in
particular the color does change. -/
theorem claim_C9 (s : Snake) (hinv : SnakeInv s) :
    ∃ s' : Snake, eat_apple s 0 0 = Except.ok s' ∧
      s'.length = s.length ∧ s'.girth = s.girth ∧
      s'.color_index = (s.color_index + 1) % 4 ∧
      s'.color = color_cycle.getD ((s.color_index + 1) % 4) "" ∧
      s'.color ≠ s.color := by
  obtain ⟨l, g, c, i⟩ := s
  obtain ⟨hlt, hco⟩ := hinv
  dsimp only at hlt hco
  refine ⟨_, eat_apple_ok _ 0 0 le_rfl le_rfl, by simp [advance_color],
    by simp [advance_color], by simp [advance_color, color_cycle],
    by simp [advance_color, color_cycle], ?_⟩
  show color_cycle.getD ((i + 1) % 4) "" ≠ c
  rw [← hco]
  clear hco
  have hlt4 : i < 4 := hlt
  clear hlt
  interval_cases i <;> decide

/-- Concrete instance of claim C9 on the driver start state. -/
theorem claim_C9_witness :
    ∃ s' : Snake, eat_apple ⟨5, 2, "green", 0⟩ 0 0 = Except.ok s' ∧
      s'.length = Snake.length ⟨5, 2, "green", 0⟩ ∧
      s'.girth = Snake.girth ⟨5, 2, "green", 0⟩ ∧
      s'.color_index = (0 + 1) % 4 ∧
      s'.color = color_cycle.getD ((0 + 1) % 4) "" ∧
      s'.color ≠ Snake.color ⟨5, 2, "green", 0⟩ :=
  claim_C9 ⟨5, 2, "green", 0⟩ ⟨by decide, by decide⟩

/-- Claim C10: for every `apples` value at most 0, `run_simulation` performs
no `eat_apple` call: the snake stays at `length=5`, `girth=2`, `color=green`,
and the only line emitted is the initial description line. -/
theorem claim_C10 (apples length_gain girth_gain : Int) (h : apples ≤ 0) :
    run_simulation apples length_gain girth_gain =
      Except.ok ["Initial: The snake is now 5 units long, 2 units around, and green."] := by
  unfold run_simulation
  rw [Int.toNat_of_nonpos h]
  rfl

/-- Concrete instance of claim C10 at apples = -3. -/
theorem claim_C10_witness :
    run_simulation (-3) 7 9 =
      Except.ok ["Initial: The snake is now 5 units long, 2 units around, and green."] :=
  claim_C10 (-3) 7 9 (by decide)
